import Mathlib

/-!
Verification of the lot-resolution and quantity-reconciliation logic of the
Balanco inventory-counting frontend (static/js/script.js, current and legacy
versions).  Input field values that JavaScript would run through parseInt are
modelled as `Option Int`: `none` stands for a NaN parse (non-numeric or
missing input), `some x` for a successful parse to the integer x.
-/

namespace Balanco

/-- Models the JavaScript idiom `v || d`: NaN (here `none`) and 0 are falsy,
so both fall back to the default d. -/
def jsOrDefault (v : Option Int) (d : Int) : Int :=
  match v with
  | none => d
  | some x => if x = 0 then d else x

/-- Embeds updateEditTotalQuantity (script.js lines 402-406):
base = parseInt(editQuantidadeBaseInput.value) || 0;
mult = parseInt(editMultiplicadorInput.value) || 1;
total = base * mult. -/
def updateEditTotalQuantity (baseField multField : Option Int) : Int :=
  jsOrDefault baseField 0 * jsOrDefault multField 1

/-- Embeds the legacy updateEditQuantidadeTotal (legacy script, lines 184-188):
identical except the multiplier falls back to 0, not 1. -/
def updateEditQuantidadeTotal (baseField multField : Option Int) : Int :=
  jsOrDefault baseField 0 * jsOrDefault multField 0

theorem jsOrDefault_zero (b : Option Int) : jsOrDefault b 0 = b.getD 0 := by
  cases b with
  | none => rfl
  | some x =>
    by_cases hx : x = 0 <;> simp [jsOrDefault, hx]

/-- Claim C2 (counterexample): the recomputation does not return
base * multiplier for every pair of field values: with base 5 and the
numeric multiplier 0 it returns 5, while 5 * 0 = 0. -/
theorem updateEditTotalQuantity_zero_mult_cex :
    updateEditTotalQuantity (some 5) (some 0) = 5 ∧ (5 : Int) * 0 ≠ 5 := by
  constructor
  · rfl
  · decide

/-- Claim C2 (amended): the recomputation returns coercedBase * coercedMult,
where a non-numeric or missing base is coerced to 0 (a zero base coincides
with that default), and a non-numeric, missing, OR ZERO multiplier is coerced
to 1; with a numeric nonzero multiplier it returns exactly base * multiplier,
and it is a total function (never raises). -/
theorem updateEditTotalQuantity_characterization (b m : Option Int) :
    updateEditTotalQuantity b m = b.getD 0 * jsOrDefault m 1 ∧
    (b = none → updateEditTotalQuantity b m = 0) ∧
    ((m = none ∨ m = some 0) → updateEditTotalQuantity b m = b.getD 0) ∧
    (∀ x y : Int, b = some x → m = some y → y ≠ 0 →
      updateEditTotalQuantity b m = x * y) := by
  refine ⟨?_, ?_, ?_, ?_⟩
  · rw [updateEditTotalQuantity, jsOrDefault_zero]
  · intro hb
    subst hb
    simp [updateEditTotalQuantity, jsOrDefault]
  · intro hm
    rcases hm with hm | hm <;> subst hm <;>
      rw [updateEditTotalQuantity, jsOrDefault_zero] <;>
      simp [jsOrDefault]
  · intro x y hb hm hy
    subst hb; subst hm
    by_cases hx : x = 0 <;>
      simp [updateEditTotalQuantity, jsOrDefault, hx, hy]

/-- Witness for the amended C2 theorem at concrete inputs. -/
theorem updateEditTotalQuantity_characterization_witness :
    updateEditTotalQuantity (some 3) (some 7) = 3 * 7 :=
  (updateEditTotalQuantity_characterization (some 3) (some 7)).2.2.2 3 7 rfl rfl
    (by decide)

/-- Claim C9 (counterexample): the current and legacy total recomputations
disagree: with base 5 and a non-numeric multiplier the current version
returns 5 (multiplier defaults to 1) while the legacy version returns 0
(multiplier defaults to 0). -/
theorem edit_total_versions_differ_cex :
    updateEditTotalQuantity (some 5) none = 5 ∧
    updateEditQuantidadeTotal (some 5) none = 0 ∧
    updateEditTotalQuantity (some 5) none ≠ updateEditQuantidadeTotal (some 5) none := by
  refine ⟨rfl, rfl, by decide⟩

/-- Claim C9 (amended): the two versions agree exactly when the multiplier
field parses to a nonzero number (or the base coerces to 0); when the
multiplier is missing, non-numeric or zero, the current version yields the
coerced base while the legacy version yields 0. -/
theorem edit_total_versions_agreement (b m : Option Int) :
    (∀ y : Int, m = some y → y ≠ 0 →
      updateEditTotalQuantity b m = updateEditQuantidadeTotal b m) ∧
    ((m = none ∨ m = some 0) →
      updateEditTotalQuantity b m = b.getD 0 ∧
      updateEditQuantidadeTotal b m = 0) := by
  constructor
  · intro y hm hy
    subst hm
    simp [updateEditTotalQuantity, updateEditQuantidadeTotal, jsOrDefault, hy]
  · intro hm
    rcases hm with hm | hm <;> subst hm <;>
      constructor <;>
      first
        | (rw [updateEditTotalQuantity, jsOrDefault_zero]; simp [jsOrDefault])
        | simp [updateEditQuantidadeTotal, jsOrDefault]

/-- Witness for the amended C9 theorem at concrete inputs. -/
theorem edit_total_versions_agreement_witness :
    updateEditTotalQuantity (some 4) (some 6) = updateEditQuantidadeTotal (some 4) (some 6) :=
  (edit_total_versions_agreement (some 4) (some 6)).1 6 rfl (by decide)

/-- An available lot as returned by /search_product (field data.lotes). -/
structure Lot where
  lote : String
  data_fabricacao : String
  data_validade : String
  saldo_disponivel : Int
deriving Repr, DecidableEq

/-- The most recently counted ledger entry for the product
(field data.last_counted_lot), or absent. -/
structure LastCountedLot where
  id : Nat
  lote : String
  data_fabricacao : String
  data_validade : String
deriving Repr, DecidableEq

/-- The catalog product record (field data.product). -/
structure Product where
  codigo_produto : String
  codigo_barras : String
  nome_produto : String
  unidade_venda : String
  multiplicador_sugerido : Int
deriving Repr, DecidableEq

/-- The full successful /search_product response stored in
currentProductDetails. -/
structure ProductDetails where
  product : Product
  lotes : List Lot
  last_counted_lot : Option LastCountedLot
deriving Repr, DecidableEq

/-- The predicate of the .find call in fetchProductDetails
(script.js lines 122-126): the available lot agrees with the last counted
lot on lote, data_fabricacao and data_validade. -/
def lastMatchPred (last : LastCountedLot) (l : Lot) : Bool :=
  l.lote == last.lote &&
  l.data_fabricacao == last.data_fabricacao &&
  l.data_validade == last.data_validade

/-- matchingAvailableLot of fetchProductDetails (script.js line 122). -/
def matchingAvailableLot (lotes : List Lot) (last : LastCountedLot) : Option Lot :=
  lotes.find? (lastMatchPred last)

/-- The payload posted to /add_to_selected_lot (script.js lines 240-249). -/
structure AddPayload where
  codigo_produto : String
  codigo_barras : String
  nome_produto : String
  lote : String
  data_fabricacao : String
  data_validade : String
  quantidade_base : Int
  multiplicador_sugerido : Int
deriving Repr, DecidableEq

/-- A request the frontend issues against the counted-entry store. -/
inductive LedgerRequest where
  | addToLastCountedLot (id : Nat) (quantity_to_add : Int)
  | addToSelectedLot (payload : AddPayload)
deriving Repr, DecidableEq

/-- addProductToLastCountedLot (script.js lines 280-301): posts the counted
entry id with quantity_to_add fixed to 1. -/
def addProductToLastCountedLotRequest (countedProductId : Nat) : LedgerRequest :=
  LedgerRequest.addToLastCountedLot countedProductId 1

/-- The ledger request issued directly by the scan handler
fetchProductDetails (script.js lines 116-135): when last_counted_lot is
present and still among the available lots, it calls
addProductToLastCountedLot; otherwise the scan issues no ledger request and
leaves the details card for the operator. -/
def scanLedgerRequest (d : ProductDetails) : Option LedgerRequest :=
  match d.last_counted_lot with
  | some last =>
      match matchingAvailableLot d.lotes last with
      | some _ => some (addProductToLastCountedLotRequest last.id)
      | none => none
  | none => none

/-- The session state the scan handler leaves behind: currentProductDetails
and the visibility of productDetailsCard (script.js lines 106, 114, 128-134). -/
structure UIState where
  currentProductDetails : Option ProductDetails
  cardVisible : Bool
deriving Repr, DecidableEq

/-- State after a successful /search_product response: the card is shown and
the details stored (lines 106, 114), then hidden and cleared again if the
auto-increment branch fired (lines 131-132). -/
def scanUIState (d : ProductDetails) : UIState :=
  match scanLedgerRequest d with
  | some _ => { currentProductDetails := none, cardVisible := false }
  | none => { currentProductDetails := some d, cardVisible := true }

/-- Claim C1: when last_counted_lot is present and some available lot agrees
with it on lote, data_fabricacao and data_validade, the scan handler issues
exactly the +1 increment request on the ledger entry identified by
last_counted_lot's id, and never an add/create request for the tuple. -/
theorem scan_matching_last_lot_auto_increments (d : ProductDetails)
    (last : LastCountedLot) (hlast : d.last_counted_lot = some last)
    (hmatch : ∃ l ∈ d.lotes, l.lote = last.lote ∧
      l.data_fabricacao = last.data_fabricacao ∧
      l.data_validade = last.data_validade) :
    scanLedgerRequest d = some (LedgerRequest.addToLastCountedLot last.id 1) ∧
    ∀ p : AddPayload, scanLedgerRequest d ≠ some (LedgerRequest.addToSelectedLot p) := by
  obtain ⟨l, hl, h1, h2, h3⟩ := hmatch
  have hfound : (matchingAvailableLot d.lotes last).isSome := by
    cases hfind : matchingAvailableLot d.lotes last with
    | some x => rfl
    | none =>
      rw [matchingAvailableLot, List.find?_eq_none] at hfind
      have hp : lastMatchPred last l = true := by
        simp [lastMatchPred, h1, h2, h3]
      exact absurd hp (hfind l hl)
  have hmain : scanLedgerRequest d = some (LedgerRequest.addToLastCountedLot last.id 1) := by
    rw [scanLedgerRequest, hlast]
    cases hfind : matchingAvailableLot d.lotes last with
    | some x => simp [hfind, addProductToLastCountedLotRequest]
    | none => rw [hfind] at hfound; exact absurd hfound (by simp)
  refine ⟨hmain, fun p hp => ?_⟩
  rw [hmain] at hp
  exact LedgerRequest.noConfusion (Option.some.inj hp)

/-- Witness for C1 at a concrete product whose last counted lot is still
available. -/
theorem scan_matching_last_lot_auto_increments_witness :
    scanLedgerRequest
      { product := { codigo_produto := "P1", codigo_barras := "789123",
                     nome_produto := "Produto Um", unidade_venda := "UN",
                     multiplicador_sugerido := 3 },
        lotes := [{ lote := "L1", data_fabricacao := "2024-01-01",
                    data_validade := "2025-01-01", saldo_disponivel := 10 }],
        last_counted_lot := some { id := 42, lote := "L1",
                                   data_fabricacao := "2024-01-01",
                                   data_validade := "2025-01-01" } }
      = some (LedgerRequest.addToLastCountedLot 42 1) :=
  (scan_matching_last_lot_auto_increments _ _ rfl
    ⟨{ lote := "L1", data_fabricacao := "2024-01-01",
       data_validade := "2025-01-01", saldo_disponivel := 10 },
     by simp, rfl, rfl, rfl⟩).1

/-- Models JavaScript Array.prototype.findIndex: first index satisfying the
predicate, or -1. -/
def findIndex (p : Lot → Bool) : List Lot → Int
  | [] => -1
  | l :: rest =>
      if p l then 0
      else
        let r := findIndex p rest
        if r = -1 then -1 else r + 1

/-- Models JavaScript array indexing lotes[idx] with a possibly negative or
out-of-range index: undefined becomes none. -/
def jsIndex (lotes : List Lot) (idx : Int) : Option Lot :=
  if 0 ≤ idx then lotes.get? idx.toNat else none

/-- The productDataOverride argument of addSelectedLotToCount
(script.js lines 209-216): the lot of the default-add path together with its
base quantity. -/
structure LotOverride where
  lote : String
  data_fabricacao : String
  data_validade : String
  quantidade_base : Int
deriving Repr, DecidableEq

/-- The findIndex predicate of the override path
(script.js lines 211-215). -/
def overridePred (o : LotOverride) (l : Lot) : Bool :=
  l.lote == o.lote &&
  l.data_fabricacao == o.data_fabricacao &&
  l.data_validade == o.data_validade

/-- The observable outcome of one call to addSelectedLotToCount: either one
of its early-return warnings, or the single POST to /add_to_selected_lot. -/
inductive ModalOutcome where
  | warnNoProduct
  | warnSelectLot
  | warnInvalidQuantity
  | warnInvalidLot
  | request (payload : AddPayload)
deriving Repr, DecidableEq

/-- The tail of addSelectedLotToCount after selectedLotIndex and quantityBase
are fixed (script.js lines 228-258): reject NaN or non-positive quantity,
reject an unresolvable lot index, otherwise build the payload and POST it. -/
def addWithIndexQty (d : ProductDetails) (idx : Int) (qty : Option Int) : ModalOutcome :=
  match qty with
  | none => ModalOutcome.warnInvalidQuantity
  | some q =>
      if q ≤ 0 then ModalOutcome.warnInvalidQuantity
      else
        match jsIndex d.lotes idx with
        | none => ModalOutcome.warnInvalidLot
        | some lot =>
            ModalOutcome.request
              { codigo_produto := d.product.codigo_produto
                codigo_barras := d.product.codigo_barras
                nome_produto := d.product.nome_produto
                lote := lot.lote
                data_fabricacao := lot.data_fabricacao
                data_validade := lot.data_validade
                quantidade_base := q
                multiplicador_sugerido := d.product.multiplicador_sugerido }

/-- addSelectedLotToCount (script.js lines 200-258).  selectedRadio models
the checked radio's index (none when no radio is checked); qtyField models
parseInt(quantityBaseInput.value); qtyOverride models the quantityOverride
parameter. -/
def addSelectedLotToCount (details : Option ProductDetails)
    (override : Option LotOverride) (selectedRadio : Option Nat)
    (qtyField : Option Int) (qtyOverride : Option Int) : ModalOutcome :=
  match details with
  | none => ModalOutcome.warnNoProduct
  | some d =>
      match override with
      | some o =>
          addWithIndexQty d (findIndex (overridePred o) d.lotes) (some o.quantidade_base)
      | none =>
          match selectedRadio with
          | none => ModalOutcome.warnSelectLot
          | some i =>
              addWithIndexQty d (Int.ofNat i)
                (match qtyOverride with
                 | some q => some q
                 | none => qtyField)

/-- The action taken by the addDefaultLotBtn click handler
(script.js lines 490-526). -/
inductive DefaultBtnAction where
  | warnNoProduct
  | incrementRequest (id : Nat) (quantity_to_add : Int)
  | addRequest (outcome : ModalOutcome)
  | openModal
deriving Repr, DecidableEq

/-- addDefaultLotBtn click handler (script.js lines 490-526): increment the
last counted lot when one exists; otherwise, with exactly one available lot,
call addSelectedLotToCount with an override of that lot and quantity 1;
otherwise open the selection modal. -/
def addDefaultLotAction (details : Option ProductDetails) : DefaultBtnAction :=
  match details with
  | none => DefaultBtnAction.warnNoProduct
  | some d =>
      match d.last_counted_lot with
      | some last => DefaultBtnAction.incrementRequest last.id 1
      | none =>
          match d.lotes with
          | [defaultLot] =>
              DefaultBtnAction.addRequest
                (addSelectedLotToCount (some d)
                  (some { lote := defaultLot.lote
                          data_fabricacao := defaultLot.data_fabricacao
                          data_validade := defaultLot.data_validade
                          quantidade_base := 1 })
                  none none none)
          | _ => DefaultBtnAction.openModal

/-- Claim C4: on the modal lot-selection path, a NaN or non-positive base
quantity is rejected with the invalid-quantity warning and no ledger request
is issued; a base quantity of at least 1 with a selected (in-range) lot
proceeds to exactly the POST payload for that lot with that quantity. -/
theorem addSelectedLot_quantity_validation (d : ProductDetails) (i : Nat)
    (q : Option Int) :
    ((q = none ∨ ∃ v : Int, q = some v ∧ v ≤ 0) →
      addSelectedLotToCount (some d) none (some i) q none =
        ModalOutcome.warnInvalidQuantity) ∧
    (∀ v : Int, q = some v → 1 ≤ v → ∀ h : i < d.lotes.length,
      addSelectedLotToCount (some d) none (some i) q none =
        ModalOutcome.request
          { codigo_produto := d.product.codigo_produto
            codigo_barras := d.product.codigo_barras
            nome_produto := d.product.nome_produto
            lote := (d.lotes.get ⟨i, h⟩).lote
            data_fabricacao := (d.lotes.get ⟨i, h⟩).data_fabricacao
            data_validade := (d.lotes.get ⟨i, h⟩).data_validade
            quantidade_base := v
            multiplicador_sugerido := d.product.multiplicador_sugerido }) := by
  constructor
  · rintro (hq | ⟨v, hq, hv⟩) <;> subst hq
    · rfl
    · simp [addSelectedLotToCount, addWithIndexQty, hv]
  · intro v hq hv h
    subst hq
    have hv0 : ¬ v ≤ 0 := by omega
    have hidx : jsIndex d.lotes (i : Int) = some (d.lotes.get ⟨i, h⟩) := by
      simp [jsIndex, List.get?_eq_get h]
    simp [addSelectedLotToCount, addWithIndexQty, hv0, hidx]

/-- Witness for C4: concrete rejection of quantity 0 and acceptance of
quantity 2 on a one-lot product. -/
theorem addSelectedLot_quantity_validation_witness :
    addSelectedLotToCount
      (some { product := { codigo_produto := "P1", codigo_barras := "789123",
                           nome_produto := "Produto Um", unidade_venda := "UN",
                           multiplicador_sugerido := 3 },
              lotes := [{ lote := "L1", data_fabricacao := "2024-01-01",
                          data_validade := "2025-01-01", saldo_disponivel := 10 }],
              last_counted_lot := none })
      none (some 0) (some 0) none = ModalOutcome.warnInvalidQuantity ∧
    addSelectedLotToCount
      (some { product := { codigo_produto := "P1", codigo_barras := "789123",
                           nome_produto := "Produto Um", unidade_venda := "UN",
                           multiplicador_sugerido := 3 },
              lotes := [{ lote := "L1", data_fabricacao := "2024-01-01",
                          data_validade := "2025-01-01", saldo_disponivel := 10 }],
              last_counted_lot := none })
      none (some 0) (some 2) none =
      ModalOutcome.request
        { codigo_produto := "P1", codigo_barras := "789123",
          nome_produto := "Produto Um", lote := "L1",
          data_fabricacao := "2024-01-01", data_validade := "2025-01-01",
          quantidade_base := 2, multiplicador_sugerido := 3 } := by
  constructor
  · exact (addSelectedLot_quantity_validation _ 0 (some 0)).1
      (Or.inr ⟨0, rfl, by decide⟩)
  · exact (addSelectedLot_quantity_validation _ 0 (some 2)).2 2 rfl (by decide)
      (by decide)

/-- Claim C3 (counterexample): a single scan of a product with exactly one
available lot and no prior counted entry creates nothing: the scan handler
issues no ledger request at all; it only shows the details card and waits
for the operator. -/
theorem scan_single_lot_creates_nothing_cex :
    scanLedgerRequest
      { product := { codigo_produto := "P1", codigo_barras := "789123",
                     nome_produto := "Produto Um", unidade_venda := "UN",
                     multiplicador_sugerido := 3 },
        lotes := [{ lote := "L1", data_fabricacao := "2024-01-01",
                    data_validade := "2025-01-01", saldo_disponivel := 10 }],
        last_counted_lot := none } = none ∧
    scanUIState
      { product := { codigo_produto := "P1", codigo_barras := "789123",
                     nome_produto := "Produto Um", unidade_venda := "UN",
                     multiplicador_sugerido := 3 },
        lotes := [{ lote := "L1", data_fabricacao := "2024-01-01",
                    data_validade := "2025-01-01", saldo_disponivel := 10 }],
        last_counted_lot := none }
      = { currentProductDetails :=
            some { product := { codigo_produto := "P1", codigo_barras := "789123",
                                nome_produto := "Produto Um", unidade_venda := "UN",
                                multiplicador_sugerido := 3 },
                   lotes := [{ lote := "L1", data_fabricacao := "2024-01-01",
                               data_validade := "2025-01-01", saldo_disponivel := 10 }],
                   last_counted_lot := none },
          cardVisible := true } :=
  ⟨rfl, rfl⟩

/-- Claim C3 (amended): for a product with exactly one available lot and no
prior counted entry, the scan issues no ledger request (it shows the card);
the subsequent default-add click then issues exactly one add request, for
that single lot, with quantidade_base = 1 and multiplicador_sugerido equal
to the product's suggested multiplier. -/
theorem default_add_single_lot_creates_entry (d : ProductDetails) (l : Lot)
    (hlast : d.last_counted_lot = none) (hlots : d.lotes = [l]) :
    scanLedgerRequest d = none ∧
    addDefaultLotAction (some d) =
      DefaultBtnAction.addRequest
        (ModalOutcome.request
          { codigo_produto := d.product.codigo_produto
            codigo_barras := d.product.codigo_barras
            nome_produto := d.product.nome_produto
            lote := l.lote
            data_fabricacao := l.data_fabricacao
            data_validade := l.data_validade
            quantidade_base := 1
            multiplicador_sugerido := d.product.multiplicador_sugerido }) := by
  constructor
  · rw [scanLedgerRequest, hlast]
  · rw [addDefaultLotAction, hlast, hlots]
    simp [addSelectedLotToCount, addWithIndexQty, findIndex, overridePred,
      jsIndex, hlots]

/-- Witness for the amended C3 theorem at a concrete one-lot product. -/
theorem default_add_single_lot_creates_entry_witness :
    addDefaultLotAction
      (some { product := { codigo_produto := "P2", codigo_barras := "456",
                           nome_produto := "Produto Dois", unidade_venda := "CX",
                           multiplicador_sugerido := 12 },
              lotes := [{ lote := "L9", data_fabricacao := "2024-02-02",
                          data_validade := "2026-02-02", saldo_disponivel := 0 }],
              last_counted_lot := none }) =
      DefaultBtnAction.addRequest
        (ModalOutcome.request
          { codigo_produto := "P2", codigo_barras := "456",
            nome_produto := "Produto Dois", lote := "L9",
            data_fabricacao := "2024-02-02", data_validade := "2026-02-02",
            quantidade_base := 1, multiplicador_sugerido := 12 }) :=
  (default_add_single_lot_creates_entry _
    { lote := "L9", data_fabricacao := "2024-02-02",
      data_validade := "2026-02-02", saldo_disponivel := 0 } rfl rfl).2

/-- One rendered row of the lot-selection modal (openSelectLotModal,
script.js lines 170-189): a radio button (value = index, checked for the
first row), the lot fields, and the warning flag added when
saldo_disponivel <= 0 (table-danger class and badge, lines 184-188). -/
structure LotRow where
  radioValue : Nat
  radioChecked : Bool
  lote : String
  data_fabricacao : String
  data_validade : String
  saldo_disponivel : Int
  flagged : Bool
deriving Repr, DecidableEq

/-- The row rendered for the lot at the given index. -/
def lotRowOf (i : Nat) (l : Lot) : LotRow :=
  { radioValue := i
    radioChecked := i == 0
    lote := l.lote
    data_fabricacao := l.data_fabricacao
    data_validade := l.data_validade
    saldo_disponivel := l.saldo_disponivel
    flagged := decide (l.saldo_disponivel ≤ 0) }

/-- The forEach loop of openSelectLotModal, carrying the running index. -/
def modalLotRowsGo (i : Nat) : List Lot → List LotRow
  | [] => []
  | l :: rest => lotRowOf i l :: modalLotRowsGo (i + 1) rest

/-- All rows of the lot-selection modal for the given available lots. -/
def modalLotRows (lotes : List Lot) : List LotRow :=
  modalLotRowsGo 0 lotes

/-- Replaces every available lot's saldo_disponivel, leaving everything else
of the product details unchanged. -/
def mapSaldos (f : Lot → Int) (d : ProductDetails) : ProductDetails :=
  { d with lotes := d.lotes.map fun l => { l with saldo_disponivel := f l } }

theorem modalLotRowsGo_length (lotes : List Lot) :
    ∀ i, (modalLotRowsGo i lotes).length = lotes.length := by
  induction lotes with
  | nil => intro i; rfl
  | cons l rest ih => intro i; simp [modalLotRowsGo, ih]

theorem modalLotRowsGo_map_lote (lotes : List Lot) :
    ∀ i, (modalLotRowsGo i lotes).map LotRow.lote = lotes.map Lot.lote := by
  induction lotes with
  | nil => intro i; rfl
  | cons l rest ih => intro i; simp [modalLotRowsGo, lotRowOf, ih]

theorem modalLotRowsGo_map_flagged (lotes : List Lot) :
    ∀ i, (modalLotRowsGo i lotes).map LotRow.flagged =
      lotes.map fun l => decide (l.saldo_disponivel ≤ 0) := by
  induction lotes with
  | nil => intro i; rfl
  | cons l rest ih => intro i; simp [modalLotRowsGo, lotRowOf, ih]

theorem find?_lastMatch_mapSaldo (f : Lot → Int) (last : LastCountedLot)
    (lotes : List Lot) :
    (lotes.map fun l => { l with saldo_disponivel := f l }).find?
        (lastMatchPred last) =
      (lotes.find? (lastMatchPred last)).map
        fun l => { l with saldo_disponivel := f l } := by
  induction lotes with
  | nil => rfl
  | cons l rest ih =>
    cases hp : lastMatchPred last l with
    | true =>
      have hpred : lastMatchPred last { l with saldo_disponivel := f l } = true := hp
      rw [List.map_cons, List.find?_cons_of_pos _ hpred,
        List.find?_cons_of_pos _ hp]
      rfl
    | false =>
      have hpred : lastMatchPred last { l with saldo_disponivel := f l } = false := hp
      rw [List.map_cons, List.find?_cons_of_neg, List.find?_cons_of_neg, ih]
      · simp [hp]
      · simp [hpred]

theorem findIndex_mapSaldo (f : Lot → Int) (o : LotOverride)
    (lotes : List Lot) :
    findIndex (overridePred o) (lotes.map fun l => { l with saldo_disponivel := f l }) =
      findIndex (overridePred o) lotes := by
  induction lotes with
  | nil => rfl
  | cons l rest ih =>
    have hpred : overridePred o { l with saldo_disponivel := f l } =
        overridePred o l := rfl
    cases hp : overridePred o l with
    | true => simp [findIndex, hpred, hp]
    | false => simp [findIndex, hpred, hp, ih]

theorem jsIndex_mapSaldo (f : Lot → Int) (lotes : List Lot) (idx : Int) :
    jsIndex (lotes.map fun l => { l with saldo_disponivel := f l }) idx =
      (jsIndex lotes idx).map fun l => { l with saldo_disponivel := f l } := by
  rw [jsIndex, jsIndex]
  by_cases h : 0 ≤ idx <;> simp [h, List.get?_map]

theorem addWithIndexQty_mapSaldos (f : Lot → Int) (d : ProductDetails)
    (idx : Int) (qty : Option Int) :
    addWithIndexQty (mapSaldos f d) idx qty = addWithIndexQty d idx qty := by
  cases qty with
  | none => rfl
  | some q =>
    by_cases hq : q ≤ 0
    · simp [addWithIndexQty, hq]
    · have hidx := jsIndex_mapSaldo f d.lotes idx
      cases hget : jsIndex d.lotes idx with
      | none => simp [addWithIndexQty, hq, mapSaldos, hidx, hget]
      | some lot => simp [addWithIndexQty, hq, mapSaldos, hidx, hget]

/-- Claim C7: a lot with saldo_disponivel <= 0 is neither hidden nor blocked:
every available lot gets a selectable modal row (same length, same lot
codes, a radio per row), the warning flag is set exactly when the balance is
non-positive and is purely cosmetic, and the scan auto-increment match, the
modal add and the resulting payload are all invariant under arbitrary
changes of every lot's saldo_disponivel. -/
theorem zero_balance_lot_not_excluded (lotes : List Lot) (d : ProductDetails)
    (f : Lot → Int) (override : Option LotOverride) (radio : Option Nat)
    (qtyField qtyOverride : Option Int) (last : LastCountedLot) :
    (modalLotRows lotes).length = lotes.length ∧
    (modalLotRows lotes).map LotRow.lote = lotes.map Lot.lote ∧
    (modalLotRows lotes).map LotRow.flagged =
      (lotes.map fun l => decide (l.saldo_disponivel ≤ 0)) ∧
    (matchingAvailableLot
        (lotes.map fun l => { l with saldo_disponivel := f l }) last).isSome =
      (matchingAvailableLot lotes last).isSome ∧
    addSelectedLotToCount (some (mapSaldos f d)) override radio qtyField qtyOverride =
      addSelectedLotToCount (some d) override radio qtyField qtyOverride ∧
    scanLedgerRequest (mapSaldos f d) = scanLedgerRequest d := by
  refine ⟨modalLotRowsGo_length lotes 0, modalLotRowsGo_map_lote lotes 0,
    modalLotRowsGo_map_flagged lotes 0, ?_, ?_, ?_⟩
  · rw [matchingAvailableLot, matchingAvailableLot, find?_lastMatch_mapSaldo]
    cases lotes.find? (lastMatchPred last) <;> rfl
  · cases override with
    | some o =>
      show addWithIndexQty (mapSaldos f d)
          (findIndex (overridePred o) (mapSaldos f d).lotes)
          (some o.quantidade_base) =
        addWithIndexQty d (findIndex (overridePred o) d.lotes)
          (some o.quantidade_base)
      rw [show (mapSaldos f d).lotes =
            d.lotes.map (fun l => { l with saldo_disponivel := f l }) from rfl,
        findIndex_mapSaldo]
      exact addWithIndexQty_mapSaldos f d _ _
    | none =>
      cases radio with
      | none => rfl
      | some i =>
        show addWithIndexQty (mapSaldos f d) (Int.ofNat i) _ =
          addWithIndexQty d (Int.ofNat i) _
        exact addWithIndexQty_mapSaldos f d (Int.ofNat i) _
  · cases hl : d.last_counted_lot with
    | none =>
      simp only [scanLedgerRequest,
        show (mapSaldos f d).last_counted_lot = d.last_counted_lot from rfl, hl]
    | some last' =>
      have hmap : matchingAvailableLot (mapSaldos f d).lotes last' =
          (matchingAvailableLot d.lotes last').map
            fun l => { l with saldo_disponivel := f l } :=
        find?_lastMatch_mapSaldo f last' d.lotes
      simp only [scanLedgerRequest,
        show (mapSaldos f d).last_counted_lot = d.last_counted_lot from rfl, hl, hmap]
      cases matchingAvailableLot d.lotes last' <;> rfl

/-- A counted ledger entry as returned by the backend
(data.counted_products). -/
structure CountedProduct where
  id : Nat
  codigo_produto : String
  codigo_barras : String
  nome_produto : String
  lote : String
  data_fabricacao : String
  data_validade : String
  quantidade_base : Int
  multiplicador_usado : Int
  quantidade_total : Int
deriving Repr, DecidableEq

/-- The quantity cell text (script.js lines 343-345): JavaScript renders the
parenthesised form when multiplicador_usado is truthy (nonzero) and not 1,
the bare total otherwise. -/
def qtdText (p : CountedProduct) : String :=
  if p.multiplicador_usado ≠ 0 ∧ p.multiplicador_usado ≠ 1 then
    toString p.quantidade_total ++ " (" ++ toString p.quantidade_base ++
      " x" ++ toString p.multiplicador_usado ++ ")"
  else
    toString p.quantidade_total

/-- One row of the counted-products table body. -/
inductive TableRow where
  | emptyPlaceholder
  | groupHeader (codigo_produto nome_produto codigo_barras : String)
  | item (rowNumber : Nat) (entry : CountedProduct) (qtd : String)
deriving Repr, DecidableEq

/-- The forEach loop of updateCountedProductsTable
(script.js lines 315-363), carrying currentCodigoProduto and rowCount:
a group-header row is inserted whenever the entry's codigo_produto differs
from the previous entry's, then the item row. -/
def renderRowsGo : List CountedProduct → Option String → Nat → List TableRow
  | [], _, _ => []
  | p :: rest, cur, n =>
      if cur = some p.codigo_produto then
        TableRow.item (n + 1) p (qtdText p) :: renderRowsGo rest cur (n + 1)
      else
        TableRow.groupHeader p.codigo_produto p.nome_produto p.codigo_barras ::
          TableRow.item (n + 1) p (qtdText p) ::
          renderRowsGo rest (some p.codigo_produto) (n + 1)

/-- updateCountedProductsTable (script.js lines 308-364): clears the table
body (so the previous contents are irrelevant), renders a placeholder row
when there are no entries, and otherwise renders the grouped rows. -/
def updateCountedProductsTable (products : List CountedProduct)
    (prevTable : List TableRow) : List TableRow :=
  if products.isEmpty then [TableRow.emptyPlaceholder]
  else renderRowsGo products none 0

/-- The entries of the item rows, in rendered order. -/
def itemEntries : List TableRow → List CountedProduct
  | [] => []
  | TableRow.item _ p _ :: rest => p :: itemEntries rest
  | _ :: rest => itemEntries rest

/-- The product codes of the group-header rows, in rendered order. -/
def headerCodes : List TableRow → List String
  | [] => []
  | TableRow.groupHeader c _ _ :: rest => c :: headerCodes rest
  | _ :: rest => headerCodes rest

/-- The product code of each maximal run of consecutive equal codes in the
entry list, relative to the running current code. -/
def runCodes : List CountedProduct → Option String → List String
  | [], _ => []
  | p :: rest, cur =>
      if cur = some p.codigo_produto then runCodes rest cur
      else p.codigo_produto :: runCodes rest (some p.codigo_produto)

theorem itemEntries_renderRowsGo (ps : List CountedProduct) :
    ∀ cur n, itemEntries (renderRowsGo ps cur n) = ps := by
  induction ps with
  | nil => intro cur n; rfl
  | cons p rest ih =>
    intro cur n
    by_cases h : cur = some p.codigo_produto <;>
      simp [renderRowsGo, h, itemEntries, ih]

theorem headerCodes_renderRowsGo (ps : List CountedProduct) :
    ∀ cur n, headerCodes (renderRowsGo ps cur n) = runCodes ps cur := by
  induction ps with
  | nil => intro cur n; rfl
  | cons p rest ih =>
    intro cur n
    by_cases h : cur = some p.codigo_produto <;>
      simp [renderRowsGo, runCodes, h, headerCodes, ih]

/-- Claim C5 (counterexample): with entries supplied in the order P1, P2, P1
(non-contiguous same-product entries, possible under creation order when a
second lot of P1 is first counted after P2), the grouped view renders TWO
group headers for product P1, so entries of the same product do not always
appear contiguously under a single product header. -/
theorem grouping_noncontiguous_two_headers_cex :
    headerCodes
      (updateCountedProductsTable
        [{ id := 1, codigo_produto := "P1", codigo_barras := "111",
           nome_produto := "Um", lote := "L1", data_fabricacao := "2024-01-01",
           data_validade := "2025-01-01", quantidade_base := 1,
           multiplicador_usado := 1, quantidade_total := 1 },
         { id := 2, codigo_produto := "P2", codigo_barras := "222",
           nome_produto := "Dois", lote := "L2", data_fabricacao := "2024-01-01",
           data_validade := "2025-01-01", quantidade_base := 1,
           multiplicador_usado := 1, quantidade_total := 1 },
         { id := 3, codigo_produto := "P1", codigo_barras := "111",
           nome_produto := "Um", lote := "L3", data_fabricacao := "2024-02-02",
           data_validade := "2025-02-02", quantidade_base := 1,
           multiplicador_usado := 1, quantidade_total := 1 }] [])
      = ["P1", "P2", "P1"] ∧
    (["P1", "P2", "P1"].count "P1" = 2 ∧ ¬ (["P1", "P2", "P1"] : List String).Nodup) := by
  refine ⟨rfl, by decide, by decide⟩

/-- Claim C5 (amended): the grouped view preserves exactly the order in
which entries were supplied (the item rows are the supplied list, with no
sort applied, also within a group), and it inserts one group header per
maximal run of consecutive equal product codes; hence a product's entries
sit under a single header precisely when they are contiguous in the supplied
list, and a product with non-contiguous entries gets one header per run. -/
theorem grouping_characterization (ps : List CountedProduct)
    (prev : List TableRow) :
    itemEntries (updateCountedProductsTable ps prev) = ps ∧
    headerCodes (updateCountedProductsTable ps prev) = runCodes ps none := by
  cases ps with
  | nil => exact ⟨rfl, rfl⟩
  | cons p rest =>
    rw [updateCountedProductsTable]
    simp only [List.isEmpty_cons, if_neg]
    exact ⟨itemEntries_renderRowsGo (p :: rest) none 0,
      headerCodes_renderRowsGo (p :: rest) none 0⟩

/-- Claim C8: the grouped view is a deterministic pure function of the entry
list: it does not depend on the previous table contents, and recomputing it
(with the same entry list) yields structurally identical output. -/
theorem grouped_view_deterministic (ps : List CountedProduct)
    (prev1 prev2 : List TableRow) :
    updateCountedProductsTable ps prev1 = updateCountedProductsTable ps prev2 ∧
    updateCountedProductsTable ps (updateCountedProductsTable ps prev1) =
      updateCountedProductsTable ps prev1 := by
  exact ⟨rfl, rfl⟩

/-- Claim C6: for a ledger entry with multiplicador_usado >= 1 (the data
model invariant), the quantity cell shows the bare total exactly when the
multiplier is 1, and the parenthesised total (base x multiplier) form in
every other case. -/
theorem qtdText_display_format (p : CountedProduct)
    (hmult : 1 ≤ p.multiplicador_usado) :
    (p.multiplicador_usado = 1 → qtdText p = toString p.quantidade_total) ∧
    (p.multiplicador_usado ≠ 1 →
      qtdText p = toString p.quantidade_total ++ " (" ++
        toString p.quantidade_base ++ " x" ++
        toString p.multiplicador_usado ++ ")") := by
  constructor
  · intro h1
    rw [qtdText, if_neg]
    simp [h1]
  · intro h1
    have h0 : p.multiplicador_usado ≠ 0 := by omega
    rw [qtdText, if_pos ⟨h0, h1⟩]

/-- Witness for C6 at a concrete entry with multiplier 2. -/
theorem qtdText_display_format_witness :
    qtdText { id := 1, codigo_produto := "P1", codigo_barras := "111",
              nome_produto := "Um", lote := "L1",
              data_fabricacao := "2024-01-01", data_validade := "2025-01-01",
              quantidade_base := 3, multiplicador_usado := 2,
              quantidade_total := 6 } = "6 (3 x2)" := by
  have h := (qtdText_display_format
    { id := 1, codigo_produto := "P1", codigo_barras := "111",
      nome_produto := "Um", lote := "L1",
      data_fabricacao := "2024-01-01", data_validade := "2025-01-01",
      quantidade_base := 3, multiplicador_usado := 2,
      quantidade_total := 6 } (by decide)).2 (by decide)
  rw [h]
  rfl

/-- Session state after addSelectedLotToCount returns (script.js lines
261-273): only when a request was issued and the server answered success does
the handler hide the card and clear currentProductDetails; warnings and
server failures leave the prior state. -/
def addSelectedUIState (outcome : ModalOutcome) (serverSuccess : Bool)
    (prior : UIState) : UIState :=
  match outcome with
  | ModalOutcome.request _ =>
      if serverSuccess then { currentProductDetails := none, cardVisible := false }
      else prior
  | _ => prior

/-- Session state after the addDefaultLotBtn click handler (script.js lines
499-525): both request-issuing branches hide the card and clear
currentProductDetails right after the awaited call (lines 503-504, 519-520);
the modal branch and the no-product warning leave the prior state. -/
def addDefaultUIState (details : Option ProductDetails) (prior : UIState) : UIState :=
  match addDefaultLotAction details with
  | DefaultBtnAction.incrementRequest _ _ =>
      { currentProductDetails := none, cardVisible := false }
  | DefaultBtnAction.addRequest _ =>
      { currentProductDetails := none, cardVisible := false }
  | _ => prior

/-- Claim C10: every add path, once it has issued its ledger request
(successfully in the modal case; the scan and default-button paths reset
unconditionally after their awaited call), leaves the session with
currentProductDetails = null and the product details card hidden, so no
second add can be triggered without a new scan. -/
theorem successful_add_resets_current_product (d : ProductDetails)
    (r : LedgerRequest) (o : ModalOutcome) (p : AddPayload)
    (details : Option ProductDetails) (prior : UIState) (id : Nat) (q : Int) :
    (scanLedgerRequest d = some r →
      scanUIState d = { currentProductDetails := none, cardVisible := false }) ∧
    (o = ModalOutcome.request p →
      addSelectedUIState o true prior =
        { currentProductDetails := none, cardVisible := false }) ∧
    (addDefaultLotAction details = DefaultBtnAction.incrementRequest id q →
      addDefaultUIState details prior =
        { currentProductDetails := none, cardVisible := false }) ∧
    (addDefaultLotAction details = DefaultBtnAction.addRequest o →
      addDefaultUIState details prior =
        { currentProductDetails := none, cardVisible := false }) := by
  refine ⟨?_, ?_, ?_, ?_⟩
  · intro hr
    rw [scanUIState, hr]
  · intro ho
    subst ho
    rfl
  · intro ha
    rw [addDefaultUIState, ha]
  · intro ha
    rw [addDefaultUIState, ha]

/-- Witness for C10: the scan path at a product whose last counted lot is
still available, and the modal path with a successful server response. -/
theorem successful_add_resets_current_product_witness :
    scanUIState
      { product := { codigo_produto := "P1", codigo_barras := "789123",
                     nome_produto := "Produto Um", unidade_venda := "UN",
                     multiplicador_sugerido := 3 },
        lotes := [{ lote := "L1", data_fabricacao := "2024-01-01",
                    data_validade := "2025-01-01", saldo_disponivel := 10 }],
        last_counted_lot := some { id := 42, lote := "L1",
                                   data_fabricacao := "2024-01-01",
                                   data_validade := "2025-01-01" } }
      = { currentProductDetails := none, cardVisible := false } ∧
    addSelectedUIState
      (ModalOutcome.request
        { codigo_produto := "P1", codigo_barras := "789123",
          nome_produto := "Produto Um", lote := "L1",
          data_fabricacao := "2024-01-01", data_validade := "2025-01-01",
          quantidade_base := 2, multiplicador_sugerido := 3 })
      true { currentProductDetails := none, cardVisible := true }
      = { currentProductDetails := none, cardVisible := false } := by
  constructor
  · exact (successful_add_resets_current_product _
      (LedgerRequest.addToLastCountedLot 42 1)
      ModalOutcome.warnNoProduct
      { codigo_produto := "P1", codigo_barras := "789123",
        nome_produto := "Produto Um", lote := "L1",
        data_fabricacao := "2024-01-01", data_validade := "2025-01-01",
        quantidade_base := 2, multiplicador_sugerido := 3 }
      none { currentProductDetails := none, cardVisible := true } 0 0).1 rfl
  · exact (successful_add_resets_current_product
      { product := { codigo_produto := "P1", codigo_barras := "789123",
                     nome_produto := "Produto Um", unidade_venda := "UN",
                     multiplicador_sugerido := 3 },
        lotes := [], last_counted_lot := none }
      (LedgerRequest.addToLastCountedLot 42 1)
      (ModalOutcome.request
        { codigo_produto := "P1", codigo_barras := "789123",
          nome_produto := "Produto Um", lote := "L1",
          data_fabricacao := "2024-01-01", data_validade := "2025-01-01",
          quantidade_base := 2, multiplicador_sugerido := 3 })
      { codigo_produto := "P1", codigo_barras := "789123",
        nome_produto := "Produto Um", lote := "L1",
        data_fabricacao := "2024-01-01", data_validade := "2025-01-01",
        quantidade_base := 2, multiplicador_sugerido := 3 }
      none { currentProductDetails := none, cardVisible := true } 0 0).2.1 rfl

end Balanco
